import Mathlib

/-
Verification of the Gmail-Agent-Registration backend against its
natural-language specification.

The JavaScript sources are embedded shallowly:

* `backend/database.js`  : `encrypt`, `decrypt`, `encryptTokens`,
  `decryptTokens`, `saveClient`, `getClientById`, `updateWatchData`,
  `updateClientTokens`.  Firestore is modelled as an association list
  keyed by `clientId`; a successful write is total, and the cases in
  which Firestore itself raises are modelled by the `Except` results
  exactly where the JavaScript wraps them in try/catch.
* `backend/gmail-watch.js` : `renewGmailWatch`, `stopGmailWatch`.
* `functions/watch-renewal.js` : `renewWatch` (the Cloud Function
  renewal step) and its local `decrypt`/`decryptTokens` copies, which
  are textually identical to the database.js ones and therefore share
  one embedding.
* `backend/webhook.js` : `sendRegistrationWebhook`, `sendRenewalWebhook`.
* `backend/server.js`  : the `POST /pubsub/push` handler.
* `backend/auth.js`    : the `GET /auth/callback` handler.

The CryptoJS AES calls are external library calls; they are modelled
symbolically: a ciphertext is the constructor `FieldVal.cipher key inner`.
Decrypting with the matching key recovers `inner`; decrypting with a
different key models the documented CryptoJS behaviour of producing an
empty or garbled UTF-8 string rather than an authenticated failure, and
decrypting a value that is not a ciphertext blob models the generic
"Malformed UTF-8 data" error thrown by `toString(CryptoJS.enc.Utf8)`.
Outbound HTTP and Gmail/PubSub API calls are parameters of the
functions that perform them, supplied as `Except` outcomes.
-/

/-- A JavaScript string value flowing through the token fields: either an
ordinary (plain) string or an AES ciphertext produced with some key.  The
`cipher` constructor is the symbolic model of `CryptoJS.AES.encrypt`. -/
inductive FieldVal where
  | plain : String → FieldVal
  | cipher : String → FieldVal → FieldVal
deriving DecidableEq

/-- JavaScript truthiness of an optional string: `undefined`/`null` and the
empty string are falsy (used for `if (!ENCRYPTION_KEY)`, `if (!N8N_WEBHOOK_URL)`,
`if (error)` and similar guards in the sources). -/
def truthyOpt : Option String → Bool
  | none => false
  | some "" => false
  | some _ => true

/-- JavaScript truthiness of a token field value (`tokens.refresh_token ? ... : null`):
the empty string is falsy, every other string — including any ciphertext
blob, which is never empty — is truthy. -/
def fieldTruthy : FieldVal → Bool
  | .plain "" => false
  | _ => true

/-- database.js `encrypt`: with the key unset the plaintext is returned
as-is (degraded pass-through mode); with a key it is AES-encrypted. -/
def encrypt (key : Option String) (v : FieldVal) : FieldVal :=
  match key with
  | none => v
  | some k => .cipher k v

/-- database.js `decrypt` (identical copy in functions/watch-renewal.js):
with the key unset the stored value is returned as-is.  With a key,
`CryptoJS.AES.decrypt(...).toString(Utf8)` recovers the plaintext for a
matching key; for a mismatched key the raw decryption yields garbage that
this model renders as the empty string returned as an ordinary value; for
input that is not a ciphertext blob the UTF-8 decode throws a generic
error.  There is no distinct DecryptionError type anywhere in the code. -/
def decrypt (key : Option String) (v : FieldVal) : Except String FieldVal :=
  match key with
  | none => .ok v
  | some k =>
    match v with
    | .cipher k2 inner => if k2 = k then .ok inner else .ok (.plain "")
    | .plain _ => .error "Malformed UTF-8 data"

/-- The OAuth token triple as it appears both in memory and in Firestore
documents: `access_token`, optional `refresh_token` (JavaScript `null`
is `none`), and the plain numeric `expiry_date`. -/
structure Tokens where
  access_token : FieldVal
  refresh_token : Option FieldVal
  expiry_date : Option Nat
deriving DecidableEq

/-- database.js `encryptTokens`: encrypts `access_token`, encrypts
`refresh_token` only when it is truthy (otherwise stores `null`), and
copies `expiry_date` through verbatim. -/
def encryptTokens (key : Option String) (t : Tokens) : Tokens :=
  { access_token := encrypt key t.access_token
    refresh_token :=
      match t.refresh_token with
      | some rv => if fieldTruthy rv then some (encrypt key rv) else none
      | none => none
    expiry_date := t.expiry_date }

/-- Body of database.js `decryptTokens` for a non-null stored token object
(the `if (!encryptedTokens) return null` guard is `decryptTokens` below):
decrypts `access_token`, decrypts `refresh_token` when truthy, copies
`expiry_date`.  A decryption error propagates. -/
def decryptTokensCore (key : Option String) (t : Tokens) : Except String Tokens :=
  match decrypt key t.access_token with
  | .error e => .error e
  | .ok a =>
    match t.refresh_token with
    | some rv =>
      if fieldTruthy rv then
        match decrypt key rv with
        | .error e => .error e
        | .ok r => .ok ⟨a, some r, t.expiry_date⟩
      else .ok ⟨a, none, t.expiry_date⟩
    | none => .ok ⟨a, none, t.expiry_date⟩

/-- database.js `decryptTokens` including the null guard. -/
def decryptTokens (key : Option String) : Option Tokens → Except String (Option Tokens)
  | none => .ok none
  | some t => (decryptTokensCore key t).map some

/-- The token triple after one encrypt/decrypt round trip: identical except
that a falsy (empty-string) refresh token has been normalised to `null` by
the ternary guards in `encryptTokens`/`decryptTokens`. -/
def normalizeTokens (t : Tokens) : Tokens :=
  { access_token := t.access_token
    refresh_token :=
      match t.refresh_token with
      | some rv => if fieldTruthy rv then some rv else none
      | none => none
    expiry_date := t.expiry_date }

/-- Gmail watch metadata stored per client: `historyId`, `expiration`
(epoch milliseconds) and the Pub/Sub `topicName`. -/
structure WatchData where
  historyId : String
  expiration : Nat
  topicName : String
deriving DecidableEq

/-- A Firestore document of the `clients` collection, which is also the
shape of the in-memory client record built by the OAuth callback. -/
structure ClientDoc where
  clientId : String
  email : String
  name : String
  company : String
  gmailAddress : String
  tokens : Tokens
  registeredAt : Nat
  lastRenewed : Option Nat
  watchData : Option WatchData
  updatedAt : Option Nat
deriving DecidableEq

/-- The `clients` Firestore collection, keyed by `clientId`. -/
abbrev Store := List (String × ClientDoc)

/-- Lookup of a document by id (Firestore `doc(id).get()`). -/
def storeGet (store : Store) (cid : String) : Option ClientDoc :=
  match store with
  | [] => none
  | (i, d) :: rest => if i = cid then some d else storeGet rest cid

/-- Replace-or-insert of a document by id (Firestore `doc(id).set`). -/
def storeSet (store : Store) (cid : String) (doc : ClientDoc) : Store :=
  match store with
  | [] => [(cid, doc)]
  | (i, d) :: rest => if i = cid then (cid, doc) :: rest else (i, d) :: storeSet rest cid doc

/-- database.js `saveClient`: encrypts the tokens, stamps `updatedAt`, and
writes the document under `clientData.clientId` with `set(..., merge)`. -/
def saveClient (clientData : ClientDoc) (key : Option String) (now : Nat) (store : Store) : Store :=
  storeSet store clientData.clientId
    { clientData with tokens := encryptTokens key clientData.tokens, updatedAt := some now }

/-- database.js `getClientById`: returns `null` for a missing document and
otherwise the document with decrypted tokens; any error inside (including
a decryption throw) is caught and re-raised as the generic retrieval
error. -/
def getClientById (key : Option String) (cid : String) (store : Store) :
    Except String (Option ClientDoc) :=
  match storeGet store cid with
  | none => .ok none
  | some doc =>
    match decryptTokensCore key doc.tokens with
    | .ok t => .ok (some { doc with tokens := t })
    | .error _ => .error "Failed to retrieve client data"

/-- database.js `updateWatchData`: a Firestore field update that writes the
given `watchData` (possibly null) and unconditionally stamps both
`lastRenewed` and `updatedAt`; updating a missing document raises, which
the catch wraps in the generic message. -/
def updateWatchData (cid : String) (watchData : Option WatchData) (now : Nat) (store : Store) :
    Except String Store :=
  match storeGet store cid with
  | none => .error "Failed to update watch data"
  | some doc =>
    .ok (storeSet store cid
      { doc with watchData := watchData, lastRenewed := some now, updatedAt := some now })

/-- database.js `updateClientTokens`: encrypts and writes the tokens and
stamps `updatedAt`; a missing document raises the generic message. -/
def updateClientTokens (cid : String) (tokens : Tokens) (key : Option String) (now : Nat)
    (store : Store) : Except String Store :=
  match storeGet store cid with
  | none => .error "Failed to update tokens"
  | some doc =>
    .ok (storeSet store cid
      { doc with tokens := encryptTokens key tokens, updatedAt := some now })

/-- The topic used for a client: `client.watchData?.topicName` when truthy,
otherwise the default `gmail-watch-` stem followed by the client id
(gmail-watch.js and watch-renewal.js). -/
def topicFor (cid : String) (wd : Option WatchData) : String :=
  match wd with
  | some w => if w.topicName = "" then "gmail-watch-" ++ cid else w.topicName
  | none => "gmail-watch-" ++ cid

/-- Response of `gmail.users.watch`: a `historyId` and an `expiration` in
epoch milliseconds. -/
structure WatchResp where
  historyId : String
  expiration : Nat
deriving DecidableEq

/-- The result objects returned by the renewal functions.  JavaScript
objects have optional fields, so every field that is present on some
paths and absent on others is an `Option`; `none` means the field is
absent from the returned object. -/
structure RenewalResult where
  success : Bool
  clientId : String
  gmailAddress : Option String
  newExpiration : Option Nat
  watchData : Option WatchData
  error : Option String
  renewedAt : Nat
deriving DecidableEq

/-- functions/watch-renewal.js `renewWatch`: takes the client document read
by the expiring-watches query, decrypts its tokens, ensures the topic,
calls `gmail.users.watch` and updates the document.  Every step is inside
one try; any failure yields the structured failure object (which carries
`gmailAddress`) and leaves the store unchanged.  `topicSetup` models
`createPubSubTopic` and `watchApi` models the Gmail watch call. -/
def renewWatch (key : Option String) (topicSetup : Except String Unit)
    (watchApi : Tokens → Except String WatchResp)
    (client : ClientDoc) (now : Nat) (store : Store) : RenewalResult × Store :=
  let fail : String → RenewalResult × Store := fun msg =>
    ({ success := false, clientId := client.clientId, gmailAddress := some client.gmailAddress,
       newExpiration := none, watchData := none, error := some msg, renewedAt := now }, store)
  match decryptTokensCore key client.tokens with
  | .error e => fail e
  | .ok tokens =>
    let topicName := topicFor client.clientId client.watchData
    match topicSetup with
    | .error e => fail e
    | .ok _ =>
      match watchApi tokens with
      | .error e => fail e
      | .ok wr =>
        match storeGet store client.clientId with
        | none => fail "NOT_FOUND: no document to update"
        | some doc =>
          ({ success := true, clientId := client.clientId,
             gmailAddress := some client.gmailAddress,
             newExpiration := some wr.expiration, watchData := none, error := none,
             renewedAt := now },
           storeSet store client.clientId
             { doc with watchData := some ⟨wr.historyId, wr.expiration, topicName⟩,
                        lastRenewed := some now, updatedAt := some now })

/-- gmail-watch.js `renewGmailWatch`: loads the client by id (throwing
`Client not found` when absent), ensures the topic, calls the watch API and
persists via `updateWatchData`.  The catch returns a failure object that
has no `gmailAddress` field; the success object carries `watchData` but no
bare new-expiration field. -/
def renewGmailWatch (key : Option String) (topicSetup : Except String Unit)
    (watchApi : Tokens → Except String WatchResp)
    (cid : String) (now : Nat) (store : Store) : RenewalResult × Store :=
  let fail : String → RenewalResult × Store := fun msg =>
    ({ success := false, clientId := cid, gmailAddress := none,
       newExpiration := none, watchData := none, error := some msg, renewedAt := now }, store)
  match getClientById key cid store with
  | .error e => fail e
  | .ok none => fail "Client not found"
  | .ok (some client) =>
    let topicName := topicFor cid client.watchData
    match topicSetup with
    | .error e => fail e
    | .ok _ =>
      match watchApi client.tokens with
      | .error e => fail e
      | .ok wr =>
        let wd : WatchData := ⟨wr.historyId, wr.expiration, topicName⟩
        match updateWatchData cid (some wd) now store with
        | .error e => fail e
        | .ok store2 =>
          ({ success := true, clientId := cid, gmailAddress := some client.gmailAddress,
             newExpiration := none, watchData := some wd, error := none, renewedAt := now },
           store2)

/-- gmail-watch.js `stopGmailWatch`: loads the client, calls
`gmail.users.stop`, then clears the watch data through `updateWatchData`
with `null`.  Errors propagate (the catch logs and rethrows). -/
def stopGmailWatch (key : Option String) (stopApi : Tokens → Except String Unit)
    (cid : String) (now : Nat) (store : Store) : Except String Store :=
  match getClientById key cid store with
  | .error e => .error e
  | .ok none => .error "Client not found"
  | .ok (some client) =>
    match stopApi client.tokens with
    | .error e => .error e
    | .ok _ => updateWatchData cid none now store

/-- Outcome object of the webhook senders in backend/webhook.js:
`skipped reason` is the early return for an unconfigured URL,
`delivered status` the success object, and `failed error attempts` the
object returned after the retry budget is exhausted. -/
inductive WebhookResult where
  | skipped : String → WebhookResult
  | delivered : Nat → WebhookResult
  | failed : String → Nat → WebhookResult
deriving DecidableEq

/-- backend/webhook.js `MAX_RETRY_ATTEMPTS`. -/
def MAX_RETRY_ATTEMPTS : Nat := 3

/-- backend/webhook.js `RETRY_DELAY_MS`. -/
def RETRY_DELAY_MS : Nat := 2000

/-- The retry loop shared by `sendRegistrationWebhook` and
`sendRenewalWebhook`: `post a` is the outcome of the axios call on
attempt `a` (ok gives the HTTP status).  The JavaScript recurses with
`attempt + 1` while `attempt < MAX_RETRY_ATTEMPTS`; here `remaining`
counts the retries left, starting from `MAX_RETRY_ATTEMPTS - 1`, which is
the same iteration.  Returns the outcome, the list of backoff delays
(`RETRY_DELAY_MS * 2 ^ (attempt - 1)` before each retry), and the number
of delivery attempts actually made.  Exceptions from the axios call are
what the catch receives; the function itself never raises. -/
def sendAttemptsAux (post : Nat → Except String Nat) : Nat → Nat → WebhookResult × List Nat × Nat
  | attempt, remaining =>
    match post attempt with
    | .ok status => (.delivered status, [], 1)
    | .error e =>
      match remaining with
      | 0 => (.failed e attempt, [], 1)
      | r + 1 =>
        let next := sendAttemptsAux post (attempt + 1) r
        (next.1, RETRY_DELAY_MS * 2 ^ (attempt - 1) :: next.2.1, next.2.2 + 1)

/-- backend/webhook.js `sendRegistrationWebhook`: skips immediately when
`N8N_WEBHOOK_URL` is falsy, otherwise runs the retry loop from attempt 1. -/
def sendRegistrationWebhook (url : Option String) (post : Nat → Except String Nat) :
    WebhookResult × List Nat × Nat :=
  if truthyOpt url then sendAttemptsAux post 1 (MAX_RETRY_ATTEMPTS - 1)
  else (.skipped "Webhook URL not configured", [], 0)

/-- backend/webhook.js `sendRenewalWebhook`: same policy against
`N8N_RENEWAL_WEBHOOK_URL`. -/
def sendRenewalWebhook (url : Option String) (post : Nat → Except String Nat) :
    WebhookResult × List Nat × Nat :=
  if truthyOpt url then sendAttemptsAux post 1 (MAX_RETRY_ATTEMPTS - 1)
  else (.skipped "Renewal webhook URL not configured", [], 0)

/-- The `message` object of a Pub/Sub push envelope. -/
structure PubSubMsg where
  data : Option String
deriving DecidableEq

/-- The JSON body of a `POST /pubsub/push` request. -/
structure PushBody where
  message : Option PubSubMsg
deriving DecidableEq

/-- backend/server.js `POST /pubsub/push` handler, returning the HTTP
status code: 400 when `message` or `message.data` is falsy (the empty
string included), 500 when decoding/parsing the payload throws (the
catch), and 200 when the notification parses.  `parse` models
`JSON.parse(Buffer.from(data, base64).toString())`. -/
def pubsubPush (parse : String → Except String Unit) (body : PushBody) : Nat :=
  match body.message with
  | none => 400
  | some m =>
    match m.data with
    | none => 400
    | some d =>
      if d = "" then 400
      else
        match parse d with
        | .ok _ => 200
        | .error _ => 500

/-- Whether an HTTP status is a success (2xx) status. -/
def is2xx (status : Nat) : Prop := 200 ≤ status ∧ status < 300

instance (status : Nat) : Decidable (is2xx status) := by
  unfold is2xx; infer_instance

/-- The pending-registration data bound to the session by
`GET /auth/google`: the client-supplied form fields plus the minted
anti-forgery `state`. -/
structure RegistrationData where
  email : String
  name : String
  company : String
  state : String
deriving DecidableEq

/-- Query parameters of `GET /auth/callback`. -/
structure CallbackQuery where
  code : Option String
  state : Option String
  error : Option String
deriving DecidableEq

/-- The four terminal HTTP responses of the callback handler:
`oauthError` is the 400 for a provider-reported error, `csrf` the 400
for a state/session mismatch, `serverError` the 500 from the catch, and
`redirect gmail now` the redirect to the success page. -/
inductive CallbackResp where
  | oauthError : String → CallbackResp
  | csrf : CallbackResp
  | serverError : CallbackResp
  | redirect : String → Nat → CallbackResp
deriving DecidableEq

/-- Everything the callback leaves behind: the response, the resulting
store, the session binding after the request, and the client record it
saved (if any). -/
structure CallbackOut where
  resp : CallbackResp
  store : Store
  session : Option RegistrationData
  saved : Option ClientDoc
deriving DecidableEq

/-- backend/auth.js `GET /auth/callback` handler.  `exchange` models
`oauth2Client.getToken(code)` and `profile` models the
`oauth2.userinfo.get()` profile-endpoint call; `uuid` is the freshly
minted client id.  A provider-reported error terminates first; then a
missing session binding or a state mismatch is the terminal CSRF
failure; then the code is exchanged, the mailbox address is taken from
the profile endpoint, and the record is built and saved with the
client-supplied form data kept only in `email`/`name`/`company`.  The
fire-and-forget `setupGmailWatch`/`sendRegistrationWebhook` side effects
never change the response or this store and are not modelled here. -/
def authCallback (exchange : Option String → Except String Tokens)
    (profile : Except String String) (uuid : String) (now : Nat) (key : Option String)
    (q : CallbackQuery) (session : Option RegistrationData) (store : Store) : CallbackOut :=
  if truthyOpt q.error then
    { resp := .oauthError (q.error.getD ""), store := store, session := session, saved := none }
  else
    match session with
    | none => { resp := .csrf, store := store, session := none, saved := none }
    | some rd =>
      if some rd.state = q.state then
        match exchange q.code with
        | .error _ => { resp := .serverError, store := store, session := some rd, saved := none }
        | .ok tokens =>
          match profile with
          | .error _ => { resp := .serverError, store := store, session := some rd, saved := none }
          | .ok gmailAddress =>
            let clientData : ClientDoc :=
              { clientId := uuid, email := rd.email, name := rd.name, company := rd.company,
                gmailAddress := gmailAddress, tokens := tokens, registeredAt := now,
                lastRenewed := none, watchData := none, updatedAt := none }
            { resp := .redirect gmailAddress now,
              store := saveClient clientData key now store,
              session := none, saved := some clientData }
      else { resp := .csrf, store := store, session := some rd, saved := none }

theorem storeGet_storeSet_self (store : Store) (cid : String) (doc : ClientDoc) :
    storeGet (storeSet store cid doc) cid = some doc := by
  induction store with
  | nil => simp [storeGet, storeSet]
  | cons hd tl ih =>
    obtain ⟨i, d⟩ := hd
    by_cases h : i = cid
    · simp [storeGet, storeSet, h]
    · simp [storeGet, storeSet, h, ih]

theorem truthyOpt_of_ne (u : String) (h : u ≠ "") : truthyOpt (some u) = true := by
  unfold truthyOpt
  split <;> simp_all

theorem fieldTruthy_cipher (k : String) (v : FieldVal) : fieldTruthy (.cipher k v) = true := rfl

theorem tokensRoundtrip (key : Option String) (t : Tokens) :
    decryptTokensCore key (encryptTokens key t) = .ok (normalizeTokens t) := by
  obtain ⟨a, r, ed⟩ := t
  cases key with
  | none =>
    cases r with
    | none => simp [encryptTokens, decryptTokensCore, normalizeTokens, encrypt, decrypt]
    | some rv =>
      by_cases hr : fieldTruthy rv <;>
        simp [encryptTokens, decryptTokensCore, normalizeTokens, encrypt, decrypt, hr]
  | some k =>
    cases r with
    | none => simp [encryptTokens, decryptTokensCore, normalizeTokens, encrypt, decrypt]
    | some rv =>
      by_cases hr : fieldTruthy rv <;>
        simp [encryptTokens, decryptTokensCore, normalizeTokens, encrypt, decrypt, hr,
          fieldTruthy_cipher]

/-- C5: for every input string, encrypting and then decrypting with the
process-wide key held constant returns the original string, both when the
key is set (AES round trip) and in the degraded pass-through mode when it
is unset. -/
theorem C5_roundtrip (key : Option String) (s : String) :
    decrypt key (encrypt key (.plain s)) = .ok (.plain s) := by
  cases key <;> simp [encrypt, decrypt]

/-- C4 counterexample: decrypting with a key different from the one used
to encrypt does not surface any error at all — `decrypt` returns the
empty string as an ordinary ok-value, treated like valid plaintext.  The
code has no DecryptionError type; its only error channel is the generic
message raised when the input is not a ciphertext blob. -/
theorem C4_wrong_key_cex :
    decrypt (some "key2") (encrypt (some "key1") (.plain "refresh-token")) = .ok (.plain "")
    ∧ FieldVal.plain "" ≠ FieldVal.plain "refresh-token" := by
  refine ⟨by simp [encrypt, decrypt], by decide⟩

/-- C4 amended: decrypting with a mismatched key yields no distinct
DecryptionError — the raw CryptoJS output (empty or garbled text) is
returned as an ordinary string value; only decrypting a value that is not
a ciphertext blob at all raises, and then only the generic malformed
UTF-8 error. -/
theorem C4_wrong_key_amended (k1 k2 k s : String) (h : k1 ≠ k2) :
    decrypt (some k2) (encrypt (some k1) (.plain s)) = .ok (.plain "")
    ∧ decrypt (some k) (.plain s) = .error "Malformed UTF-8 data" := by
  constructor
  · simp [encrypt, decrypt, h]
  · rfl

theorem C4_wrong_key_amended_w :
    ("key1" : String) ≠ "key2"
    ∧ (decrypt (some "key2") (encrypt (some "key1") (.plain "tok")) = .ok (.plain "")
       ∧ decrypt (some "key1") (.plain "tok") = .error "Malformed UTF-8 data") :=
  ⟨by decide, C4_wrong_key_amended "key1" "key2" "key1" "tok" (by decide)⟩

/-- C6 counterexample: `encryptTokens` writes `expiry_date` verbatim — the
stored value is the plaintext input number (its `Option Nat` type has no
encrypted form at all), while `access_token` is indeed a ciphertext. -/
theorem C6_expiry_plain_cex :
    (encryptTokens (some "k") ⟨.plain "at", some (.plain "rt"), some 1705318200000⟩).expiry_date
        = some 1705318200000
    ∧ (encryptTokens (some "k") ⟨.plain "at", some (.plain "rt"), some 1705318200000⟩).access_token
        = .cipher "k" (.plain "at") := by
  decide

/-- C6 amended: with the encryption key set, `saveClient` and
`updateClientTokens` write the tokens through `encryptTokens`, which
encrypts `access_token`, encrypts `refresh_token` exactly when it is
truthy (storing `null` otherwise), and stores `expiry_date` verbatim in
plaintext. -/
theorem C6_encrypt_at_rest_amended (k : String) (now : Nat) (cd doc : ClientDoc)
    (t : Tokens) (cid : String) (store : Store) :
    (storeGet (saveClient cd (some k) now store) cd.clientId).map (fun d => d.tokens)
        = some (encryptTokens (some k) cd.tokens)
    ∧ (encryptTokens (some k) t).access_token = .cipher k t.access_token
    ∧ (encryptTokens (some k) t).expiry_date = t.expiry_date
    ∧ (encryptTokens (some k) t).refresh_token
        = t.refresh_token.bind (fun rv => if fieldTruthy rv then some (.cipher k rv) else none)
    ∧ updateClientTokens cid t (some k) now (storeSet store cid doc)
        = .ok (storeSet (storeSet store cid doc) cid
            { doc with tokens := encryptTokens (some k) t, updatedAt := some now }) := by
  refine ⟨?_, rfl, rfl, ?_, ?_⟩
  · simp [saveClient, storeGet_storeSet_self]
  · cases h : t.refresh_token <;> simp [encryptTokens, encrypt, h]
  · simp [updateClientTokens, storeGet_storeSet_self]

/-- C3 counterexample: the push handler answers 400 (not 2xx) when the
message envelope is missing, and 500 (not 2xx) when the payload fails to
parse. -/
theorem C3_push_cex :
    ¬ is2xx (pubsubPush (fun _ => .ok ()) { message := none })
    ∧ ¬ is2xx (pubsubPush (fun _ => .error "Unexpected end of JSON input")
        { message := some { data := some "eyJ9" } }) := by
  decide

/-- C3 amended: the push handler decodes and acknowledges with 200 only
when a non-empty `message.data` payload is present and parses; a missing
or falsy `message`/`message.data` is answered 400, and a payload whose
decode/parse throws is answered 500 — not 2xx in either failure case. -/
theorem C3_push_status (parse : String → Except String Unit) (d e : String) (hd : d ≠ "") :
    pubsubPush parse { message := none } = 400
    ∧ pubsubPush parse { message := some { data := none } } = 400
    ∧ pubsubPush parse { message := some { data := some "" } } = 400
    ∧ (parse d = .ok () → pubsubPush parse { message := some { data := some d } } = 200)
    ∧ (parse d = .error e → pubsubPush parse { message := some { data := some d } } = 500) := by
  refine ⟨rfl, rfl, ?_, ?_, ?_⟩
  · simp [pubsubPush]
  · intro h; simp [pubsubPush, hd, h]
  · intro h; simp [pubsubPush, hd, h]

theorem C3_push_status_w :
    ("eyJlbWFpbEFkZHJlc3MiOiJ4In0" : String) ≠ ""
    ∧ (pubsubPush (fun _ => .ok ()) { message := none } = 400
       ∧ pubsubPush (fun _ => .ok ()) { message := some { data := none } } = 400
       ∧ pubsubPush (fun _ => .ok ()) { message := some { data := some "" } } = 400
       ∧ ((fun (_ : String) => (Except.ok () : Except String Unit)) "eyJlbWFpbEFkZHJlc3MiOiJ4In0"
              = .ok () →
          pubsubPush (fun _ => .ok ())
              { message := some { data := some "eyJlbWFpbEFkZHJlc3MiOiJ4In0" } } = 200)
       ∧ ((fun (_ : String) => (Except.ok () : Except String Unit)) "eyJlbWFpbEFkZHJlc3MiOiJ4In0"
              = .error "boom" →
          pubsubPush (fun _ => .ok ())
              { message := some { data := some "eyJlbWFpbEFkZHJlc3MiOiJ4In0" } } = 500)) :=
  ⟨by decide, C3_push_status (fun _ => .ok ()) "eyJlbWFpbEFkZHJlc3MiOiJ4In0" "boom" (by decide)⟩

/-- C7: both webhook senders return a skipped outcome immediately with
zero delivery attempts when their endpoint URL is unconfigured; under
persistent failure they make exactly `MAX_RETRY_ATTEMPTS` delivery
attempts with backoff delays `RETRY_DELAY_MS * 2 ^ (attempt - 1)` between
them — strictly increasing — and then return a failure outcome value
(the catch converts every axios throw into a return). -/
theorem C7_webhook_retry (u e : String) (post : Nat → Except String Nat) (hu : u ≠ "") :
    sendRegistrationWebhook none post = (.skipped "Webhook URL not configured", [], 0)
    ∧ sendRenewalWebhook none post = (.skipped "Renewal webhook URL not configured", [], 0)
    ∧ sendRegistrationWebhook (some u) (fun _ => .error e)
        = (.failed e MAX_RETRY_ATTEMPTS,
           [RETRY_DELAY_MS * 2 ^ 0, RETRY_DELAY_MS * 2 ^ 1], MAX_RETRY_ATTEMPTS)
    ∧ sendRenewalWebhook (some u) (fun _ => .error e)
        = (.failed e MAX_RETRY_ATTEMPTS,
           [RETRY_DELAY_MS * 2 ^ 0, RETRY_DELAY_MS * 2 ^ 1], MAX_RETRY_ATTEMPTS)
    ∧ RETRY_DELAY_MS * 2 ^ 0 < RETRY_DELAY_MS * 2 ^ 1 := by
  refine ⟨rfl, rfl, ?_, ?_, by norm_num [RETRY_DELAY_MS]⟩ <;>
    simp [sendRegistrationWebhook, sendRenewalWebhook, truthyOpt_of_ne u hu,
      MAX_RETRY_ATTEMPTS, sendAttemptsAux]

theorem C7_webhook_retry_w :
    ("https://n8n.example/hook" : String) ≠ ""
    ∧ (sendRegistrationWebhook none (fun _ => .ok 200)
          = (.skipped "Webhook URL not configured", [], 0)
       ∧ sendRenewalWebhook none (fun _ => .ok 200)
          = (.skipped "Renewal webhook URL not configured", [], 0)
       ∧ sendRegistrationWebhook (some "https://n8n.example/hook") (fun _ => .error "ECONNREFUSED")
          = (.failed "ECONNREFUSED" MAX_RETRY_ATTEMPTS,
             [RETRY_DELAY_MS * 2 ^ 0, RETRY_DELAY_MS * 2 ^ 1], MAX_RETRY_ATTEMPTS)
       ∧ sendRenewalWebhook (some "https://n8n.example/hook") (fun _ => .error "ECONNREFUSED")
          = (.failed "ECONNREFUSED" MAX_RETRY_ATTEMPTS,
             [RETRY_DELAY_MS * 2 ^ 0, RETRY_DELAY_MS * 2 ^ 1], MAX_RETRY_ATTEMPTS)
       ∧ RETRY_DELAY_MS * 2 ^ 0 < RETRY_DELAY_MS * 2 ^ 1) :=
  ⟨by decide, C7_webhook_retry "https://n8n.example/hook" "ECONNREFUSED"
      (fun _ => .ok 200) (by decide)⟩

/-- C1: on a completed handshake (no provider error, matching state,
successful exchange and profile call) the record the callback saves has
`gmailAddress` equal to the email returned by the profile endpoint, keeps
the client-supplied form email only in the separate `email` field, and —
whenever the profile email differs from the form email — the stored
mailbox address is not the client-supplied address; the persisted
document agrees. -/
theorem C1_mailbox_from_profile (tokens : Tokens) (g : String) (rd : RegistrationData)
    (uuid : String) (code : Option String) (now : Nat) (key : Option String) (store : Store)
    (hne : g ≠ rd.email) :
    (authCallback (fun _ => .ok tokens) (.ok g) uuid now key
        { code := code, state := some rd.state, error := none } (some rd) store).saved.map
          (fun c => c.gmailAddress) = some g
    ∧ (authCallback (fun _ => .ok tokens) (.ok g) uuid now key
        { code := code, state := some rd.state, error := none } (some rd) store).saved.map
          (fun c => c.email) = some rd.email
    ∧ (authCallback (fun _ => .ok tokens) (.ok g) uuid now key
        { code := code, state := some rd.state, error := none } (some rd) store).saved.map
          (fun c => c.gmailAddress) ≠ some rd.email
    ∧ (storeGet (authCallback (fun _ => .ok tokens) (.ok g) uuid now key
        { code := code, state := some rd.state, error := none } (some rd) store).store uuid).map
          (fun c => c.gmailAddress) = some g := by
  refine ⟨?_, ?_, ?_, ?_⟩ <;>
    simp [authCallback, truthyOpt, saveClient, storeGet_storeSet_self, hne]

theorem C1_mailbox_from_profile_w :
    ("user@gmail.com" : String) ≠ "owner@corp.com"
    ∧ ((authCallback (fun _ => .ok ⟨.plain "ya29", some (.plain "1rt"), some 1000⟩)
          (.ok "user@gmail.com") "uuid-1" 42 (some "k")
          { code := some "c0", state := some "st123", error := none }
          (some ⟨"owner@corp.com", "Jane", "Acme", "st123"⟩) []).saved.map
            (fun c => c.gmailAddress) = some "user@gmail.com"
       ∧ (authCallback (fun _ => .ok ⟨.plain "ya29", some (.plain "1rt"), some 1000⟩)
          (.ok "user@gmail.com") "uuid-1" 42 (some "k")
          { code := some "c0", state := some "st123", error := none }
          (some ⟨"owner@corp.com", "Jane", "Acme", "st123"⟩) []).saved.map
            (fun c => c.email) = some "owner@corp.com"
       ∧ (authCallback (fun _ => .ok ⟨.plain "ya29", some (.plain "1rt"), some 1000⟩)
          (.ok "user@gmail.com") "uuid-1" 42 (some "k")
          { code := some "c0", state := some "st123", error := none }
          (some ⟨"owner@corp.com", "Jane", "Acme", "st123"⟩) []).saved.map
            (fun c => c.gmailAddress) ≠ some "owner@corp.com"
       ∧ (storeGet (authCallback (fun _ => .ok ⟨.plain "ya29", some (.plain "1rt"), some 1000⟩)
          (.ok "user@gmail.com") "uuid-1" 42 (some "k")
          { code := some "c0", state := some "st123", error := none }
          (some ⟨"owner@corp.com", "Jane", "Acme", "st123"⟩) []).store "uuid-1").map
            (fun c => c.gmailAddress) = some "user@gmail.com") :=
  ⟨by decide, C1_mailbox_from_profile ⟨.plain "ya29", some (.plain "1rt"), some 1000⟩
      "user@gmail.com" ⟨"owner@corp.com", "Jane", "Acme", "st123"⟩ "uuid-1" (some "c0") 42
      (some "k") [] (by decide)⟩

/-- C2: on a callback carrying no provider error, a missing session
binding or a returned state different from the state bound to the session
terminates with the CSRF failure response, and the store is untouched —
`saveClient` is never reached on that path (no record is saved). -/
theorem C2_csrf_guard (exchange : Option String → Except String Tokens)
    (profile : Except String String) (uuid : String) (now : Nat) (key : Option String)
    (code s : Option String) (store : Store) (rd : RegistrationData)
    (hmis : s ≠ some rd.state) :
    authCallback exchange profile uuid now key { code := code, state := s, error := none }
        none store = { resp := .csrf, store := store, session := none, saved := none }
    ∧ authCallback exchange profile uuid now key { code := code, state := s, error := none }
        (some rd) store = { resp := .csrf, store := store, session := some rd, saved := none } := by
  constructor
  · rfl
  · simp [authCallback, truthyOpt, Ne.symm hmis]

theorem C2_csrf_guard_w :
    (some "evil" : Option String) ≠ some "good"
    ∧ (authCallback (fun _ => .error "x") (.error "x") "u" 0 none
          { code := none, state := some "evil", error := none } none []
        = { resp := .csrf, store := [], session := none, saved := none }
       ∧ authCallback (fun _ => .error "x") (.error "x") "u" 0 none
          { code := none, state := some "evil", error := none }
          (some ⟨"e", "n", "c", "good"⟩) []
        = { resp := .csrf, store := [], session := some ⟨"e", "n", "c", "good"⟩,
            saved := none }) :=
  ⟨by decide, C2_csrf_guard (fun _ => .error "x") (.error "x") "u" 0 none none (some "evil") []
      ⟨"e", "n", "c", "good"⟩ (by decide)⟩

/-- C8 counterexample: `renewGmailWatch` invoked on a missing account
returns a structured failure result whose `gmailAddress` field is absent
— the claimed `mailboxAddress` member is not part of the failure object
built in its catch. -/
theorem C8_renew_shape_cex :
    (renewGmailWatch (some "k") (.ok ()) (fun _ => .ok ⟨"h", 9⟩) "ghost" 7 []).1.gmailAddress
        = none
    ∧ (renewGmailWatch (some "k") (.ok ()) (fun _ => .ok ⟨"h", 9⟩) "ghost" 7 []).1.success
        = false
    ∧ (renewGmailWatch (some "k") (.ok ()) (fun _ => .ok ⟨"h", 9⟩) "ghost" 7 []).1.error
        = some "Client not found" :=
  ⟨rfl, rfl, rfl⟩

/-- C8 amended: renewal never raises and always returns a structured
result object, but the two implementations differ from the claimed shape:
the Cloud Function `renewWatch` returns
`(success:false, clientId, gmailAddress, error, renewedAt)` on failure and
`(success:true, clientId, gmailAddress, newExpiration, renewedAt)` on
success, while the backend `renewGmailWatch` omits `gmailAddress` from
its failure object and carries the full `watchData` object instead of a
bare new-expiry field on success. -/
theorem C8_renew_shape_amended (key : Option String) (topicSetup : Except String Unit)
    (watchApi : Tokens → Except String WatchResp) (t : Tokens) (cd : ClientDoc) (e : String)
    (wr : WatchResp) (now : Nat) (store store0 store1 : Store) (cid : String) :
    renewWatch key (.ok ()) (fun _ => .error e) { cd with tokens := encryptTokens key t } now store
      = ({ success := false, clientId := cd.clientId, gmailAddress := some cd.gmailAddress,
           newExpiration := none, watchData := none, error := some e, renewedAt := now }, store)
    ∧ renewWatch key (.ok ()) (fun _ => .ok wr) { cd with tokens := encryptTokens key t } now
        (storeSet store0 cd.clientId { cd with tokens := encryptTokens key t })
      = ({ success := true, clientId := cd.clientId, gmailAddress := some cd.gmailAddress,
           newExpiration := some wr.expiration, watchData := none, error := none,
           renewedAt := now },
         storeSet (storeSet store0 cd.clientId { cd with tokens := encryptTokens key t })
           cd.clientId
           { cd with tokens := encryptTokens key t,
                     watchData := some ⟨wr.historyId, wr.expiration,
                       topicFor cd.clientId cd.watchData⟩,
                     lastRenewed := some now, updatedAt := some now })
    ∧ renewGmailWatch key topicSetup watchApi cid now []
      = ({ success := false, clientId := cid, gmailAddress := none, newExpiration := none,
           watchData := none, error := some "Client not found", renewedAt := now }, [])
    ∧ renewGmailWatch key (.ok ()) (fun _ => .ok wr) cd.clientId now
        (storeSet store1 cd.clientId { cd with tokens := encryptTokens key t })
      = ({ success := true, clientId := cd.clientId, gmailAddress := some cd.gmailAddress,
           newExpiration := none,
           watchData := some ⟨wr.historyId, wr.expiration, topicFor cd.clientId cd.watchData⟩,
           error := none, renewedAt := now },
         storeSet (storeSet store1 cd.clientId { cd with tokens := encryptTokens key t })
           cd.clientId
           { cd with tokens := encryptTokens key t,
                     watchData := some ⟨wr.historyId, wr.expiration,
                       topicFor cd.clientId cd.watchData⟩,
                     lastRenewed := some now, updatedAt := some now }) := by
  refine ⟨?_, ?_, rfl, ?_⟩
  · simp [renewWatch, tokensRoundtrip]
  · simp [renewWatch, tokensRoundtrip, storeGet_storeSet_self]
  · simp [renewGmailWatch, getClientById, storeGet_storeSet_self, tokensRoundtrip,
      updateWatchData]

/-- C9 counterexample: an account whose stored credentials contain no
refresh token is renewed by `renewWatch` without any failure when the
provider accepts the call — the result is a success, not the claimed
missing-offline-grant failure — and the stored subscription data is
changed, not left as it was. -/
theorem C9_no_refresh_cex :
    (renewWatch (some "k") (.ok ()) (fun _ => .ok ⟨"h1", 99⟩)
        ⟨"c1", "e@x", "N", "Co", "g@gmail.com", ⟨.cipher "k" (.plain "at"), none, some 5⟩, 1,
          none, some ⟨"h0", 10, "top"⟩, none⟩ 7
        [("c1", ⟨"c1", "e@x", "N", "Co", "g@gmail.com",
            ⟨.cipher "k" (.plain "at"), none, some 5⟩, 1, none, some ⟨"h0", 10, "top"⟩,
            none⟩)]).1.success = true
    ∧ (renewWatch (some "k") (.ok ()) (fun _ => .ok ⟨"h1", 99⟩)
        ⟨"c1", "e@x", "N", "Co", "g@gmail.com", ⟨.cipher "k" (.plain "at"), none, some 5⟩, 1,
          none, some ⟨"h0", 10, "top"⟩, none⟩ 7
        [("c1", ⟨"c1", "e@x", "N", "Co", "g@gmail.com",
            ⟨.cipher "k" (.plain "at"), none, some 5⟩, 1, none, some ⟨"h0", 10, "top"⟩,
            none⟩)]).2
      ≠ [("c1", ⟨"c1", "e@x", "N", "Co", "g@gmail.com",
            ⟨.cipher "k" (.plain "at"), none, some 5⟩, 1, none, some ⟨"h0", 10, "top"⟩,
            none⟩)] := by
  refine ⟨rfl, by decide⟩

/-- C9 amended: neither `decryptTokens` nor `renewWatch` checks for a
missing refresh token.  Decrypting such credentials succeeds with
`refresh_token` null; renewal of such an account succeeds (and updates
the stored subscription) whenever the provider call succeeds, and when
the provider call fails the failure result carries exactly the provider
error message — there is no distinct missing-offline-grant error. -/
theorem C9_no_refresh_amended (key : Option String) (a : String) (ed : Option Nat)
    (cd : ClientDoc) (e : String) (wr : WatchResp) (now : Nat) (store store0 : Store) :
    decryptTokensCore key (encryptTokens key ⟨.plain a, none, ed⟩) = .ok ⟨.plain a, none, ed⟩
    ∧ renewWatch key (.ok ()) (fun _ => .error e)
        { cd with tokens := encryptTokens key ⟨.plain a, none, ed⟩ } now store
      = ({ success := false, clientId := cd.clientId, gmailAddress := some cd.gmailAddress,
           newExpiration := none, watchData := none, error := some e, renewedAt := now }, store)
    ∧ renewWatch key (.ok ()) (fun _ => .ok wr)
        { cd with tokens := encryptTokens key ⟨.plain a, none, ed⟩ } now
        (storeSet store0 cd.clientId
          { cd with tokens := encryptTokens key ⟨.plain a, none, ed⟩ })
      = ({ success := true, clientId := cd.clientId, gmailAddress := some cd.gmailAddress,
           newExpiration := some wr.expiration, watchData := none, error := none,
           renewedAt := now },
         storeSet (storeSet store0 cd.clientId
             { cd with tokens := encryptTokens key ⟨.plain a, none, ed⟩ })
           cd.clientId
           { cd with tokens := encryptTokens key ⟨.plain a, none, ed⟩,
                     watchData := some ⟨wr.historyId, wr.expiration,
                       topicFor cd.clientId cd.watchData⟩,
                     lastRenewed := some now, updatedAt := some now }) := by
  refine ⟨?_, ?_, ?_⟩
  · simp [tokensRoundtrip, normalizeTokens]
  · simp [renewWatch, tokensRoundtrip]
  · simp [renewWatch, tokensRoundtrip, storeGet_storeSet_self]

/-- C10 counterexample: clearing the watch data (`updateWatchData` with
null, the teardown path) does not leave `lastRenewed` unchanged — a
document whose `lastRenewed` was 3 comes out stamped with the current
time 9. -/
theorem C10_lastRenewed_cex :
    updateWatchData "c1" none 9
        [("c1", ⟨"c1", "e@x", "N", "Co", "g@x", ⟨.plain "at", none, none⟩, 1, some 3,
            some ⟨"h", 5, "t"⟩, none⟩)]
      = .ok [("c1", ⟨"c1", "e@x", "N", "Co", "g@x", ⟨.plain "at", none, none⟩, 1, some 9,
            none, some 9⟩)]
    ∧ (9 : Nat) ≠ 3 :=
  ⟨rfl, by decide⟩

/-- C10 amended: `updateWatchData` stamps `lastRenewed` (and `updatedAt`)
with the current time on every successful call — both when a subscription
value is set and when it is cleared to null, as `stopGmailWatch` does on
teardown. -/
theorem C10_lastRenewed_amended (cid : String) (wd : Option WatchData) (now : Nat)
    (doc cd : ClientDoc) (store store0 : Store) (key : Option String) (t : Tokens) :
    updateWatchData cid none now (storeSet store cid doc)
      = .ok (storeSet (storeSet store cid doc) cid
          { doc with watchData := none, lastRenewed := some now, updatedAt := some now })
    ∧ updateWatchData cid wd now (storeSet store cid doc)
      = .ok (storeSet (storeSet store cid doc) cid
          { doc with watchData := wd, lastRenewed := some now, updatedAt := some now })
    ∧ stopGmailWatch key (fun _ => .ok ()) cd.clientId now
        (storeSet store0 cd.clientId { cd with tokens := encryptTokens key t })
      = .ok (storeSet (storeSet store0 cd.clientId { cd with tokens := encryptTokens key t })
          cd.clientId
          { cd with tokens := encryptTokens key t, watchData := none,
                    lastRenewed := some now, updatedAt := some now }) := by
  refine ⟨?_, ?_, ?_⟩
  · simp [updateWatchData, storeGet_storeSet_self]
  · simp [updateWatchData, storeGet_storeSet_self]
  · simp [stopGmailWatch, getClientById, storeGet_storeSet_self, tokensRoundtrip,
      updateWatchData]
